import Mathlib

/-!
Verification development for the `plagiarism_tool` repository (`src/app.py`).

The Python source is shallowly embedded:
* text is modelled as `List Char` (Python `str`), Python's substring test
  `needle in hay` as `hasSub`, `str.endswith` as `endsWithChars`;
* the float scores `85.5`, `12.0`, `0.0` are exact decimal values, modelled in `ℚ`;
* `random.randint(0, 20)` is modelled by passing in the drawn value `randVal`
  together with the hypothesis `randVal ≤ 20` where the draw's range matters;
* Python exceptions are modelled by `Except PyExc`; a fallible call site takes an
  `Option PyExc` fault parameter (`some e` means the underlying library call
  raised `e` there, `none` means it returned normally), so that the source's
  `try/except` structure — and its absence — is visible in the model;
* the streamlit UI around `main` is dropped; what remains is `main`'s
  data path: file-name dispatch to an extractor, the length gate on
  `user_text`, the two scorer calls, and the assembled result, with the three
  possible user-visible outcomes (`report`, the `st.error` message, an
  uncaught exception).
-/

/-- A Python exception value (only its message matters here). -/
inductive PyExc where
  | exc : String → PyExc
deriving DecidableEq

/-- Python `try: body except Exception: handler` for a body already evaluated
to an `Except` value. -/
def pyTry {α : Type} (body : Except PyExc α) (handler : PyExc → α) : α :=
  match body with
  | Except.ok a => a
  | Except.error e => handler e

/-- `startsWithChars l p = true` iff `p` is an initial segment of `l`. -/
def startsWithChars : List Char → List Char → Bool
  | _, [] => true
  | [], _ :: _ => false
  | c :: cs, d :: ds => c == d && startsWithChars cs ds

/-- Python's substring test `needle in hay` on `List Char`. -/
def hasSub : List Char → List Char → Bool
  | [], needle => needle.isEmpty
  | c :: cs, needle => startsWithChars (c :: cs) needle || hasSub cs needle

/-- Python's `s.endswith(t)` on `List Char`. -/
def endsWithChars (s t : List Char) : Bool :=
  List.drop (s.length - t.length) s == t

/-- `extract_text_from_pdf` (src/app.py lines 7-12).  `PyPDF2.PdfReader(file)`
either yields the list of page texts (in page order) or raises on malformed
bytes; `parsed` is that outcome.  The loop `text += page.extract_text()` is the
fold.  Note there is no `try/except`: a parse error propagates. -/
def extract_text_from_pdf (parsed : Except PyExc (List (List Char))) :
    Except PyExc (List Char) :=
  match parsed with
  | Except.error e => Except.error e
  | Except.ok pages => Except.ok (pages.foldl (fun text page => text ++ page) [])

/-- `extract_text_from_docx` (src/app.py lines 14-19).  `docx.Document(file)`
either yields the list of paragraph texts (in document order) or raises;
the loop is `text += para.text + "\n"`.  No `try/except` here either. -/
def extract_text_from_docx (parsed : Except PyExc (List (List Char))) :
    Except PyExc (List Char) :=
  match parsed with
  | Except.error e => Except.error e
  | Except.ok paras =>
      Except.ok (paras.foldl (fun text para => text ++ para ++ ['\n']) [])

/-- First telltale phrase checked by `check_ai_probability`. -/
def telltale1 : List Char := "As an AI language model".toList

/-- Second telltale phrase checked by `check_ai_probability`. -/
def telltale2 : List Char := "In conclusion,".toList

/-- Body of the `try` block of `check_ai_probability` (src/app.py lines 29-42).
`fault` injects an exception raised inside the body; on the normal path the
body computes `truncated_text = text[:1500]` (unused by the demo logic) and
tests the two phrases against the FULL `text`. -/
def check_ai_probability_body (text : List Char) (fault : Option PyExc) :
    Except PyExc (ℚ × String) :=
  match fault with
  | some e => Except.error e
  | none =>
      let _truncated_text := text.take 1500
      if hasSub text telltale1 || hasSub text telltale2 then
        Except.ok (85.5, "High AI Probability")
      else
        Except.ok (12.0, "Low AI Probability")

/-- `check_ai_probability` (src/app.py lines 28-44): the `try` body with the
`except Exception` handler returning `(0.0, "Error")`. -/
def check_ai_probability (text : List Char) (fault : Option PyExc) : ℚ × String :=
  pyTry (check_ai_probability_body text fault) (fun _ => (0.0, "Error"))

/-- The fixed mock reference list of `check_plagiarism`. -/
def mockSources : List String := ["Wikipedia - General Knowledge", "Academic Source A"]

/-- `check_plagiarism` (src/app.py lines 47-53).  `randVal` is the value drawn
by `random.randint(0, 20)`; `fault` injects an exception raised inside the
function body.  There is NO `try/except`, so an injected fault becomes
`Except.error` (it propagates to the caller). -/
def check_plagiarism (text : List Char) (randVal : ℕ) (fault : Option PyExc) :
    Except PyExc (ℕ × List String) :=
  match fault with
  | some e => Except.error e
  | none =>
      let _ := text
      let score := randVal
      let sources := if score > 10 then mockSources else []
      Except.ok (score, sources)

/-- The data `main` assembles and displays for one analysis
(ai score/label from `check_ai_probability`, plagiarism score and source list
from `check_plagiarism`, and the extracted text shown in the expander). -/
structure AnalysisReport where
  ai_score : ℚ
  ai_label : String
  plag_score : ℕ
  sources : List String
  extracted_text : List Char
deriving DecidableEq

/-- The user-visible outcome of one run of `main`'s analysis path:
a displayed report, a displayed `st.error` message (no report), or an
uncaught Python exception (the script crashes). -/
inductive Outcome where
  | report : AnalysisReport → Outcome
  | errMsg : String → Outcome
  | crash : PyExc → Outcome
deriving DecidableEq

/-- The "Analyze Content" button handler of `main` (src/app.py lines 80-115):
`if user_text and len(user_text) > 50:` run both scorers and display the
report, `else` display the error message.  An exception escaping
`check_plagiarism` (which has no handler) crashes the run. -/
def analyzeButton (user_text : List Char) (randVal : ℕ)
    (aiFault plagFault : Option PyExc) : Outcome :=
  if !user_text.isEmpty && decide (50 < user_text.length) then
    let ai := check_ai_probability user_text aiFault
    match check_plagiarism user_text randVal plagFault with
    | Except.error e => Outcome.crash e
    | Except.ok plag =>
        Outcome.report ⟨ai.1, ai.2, plag.1, plag.2, user_text⟩
  else
    Outcome.errMsg "Please provide text longer than 50 characters."

/-- An uploaded file: its name and what the two container parsers would yield
on its bytes (`Except.error` models malformed/corrupt bytes). -/
structure UploadedFile where
  name : List Char
  pdfParse : Except PyExc (List (List Char))
  docxParse : Except PyExc (List (List Char))

/-- The "Upload File" branch of `main` (src/app.py lines 67-74): dispatch on
the file-name suffix; a name matching neither leaves `user_text = ""`. -/
def uploadText (f : UploadedFile) : Except PyExc (List Char) :=
  if endsWithChars f.name (".pdf".toList) then extract_text_from_pdf f.pdfParse
  else if endsWithChars f.name (".docx".toList) then extract_text_from_docx f.docxParse
  else Except.ok []

/-- `main`'s whole data path for an uploaded file: extraction (an extraction
exception propagates uncaught — there is no handler around the extractor
calls), then the analyze button on the resulting text. -/
def mainUpload (f : UploadedFile) (randVal : ℕ)
    (aiFault plagFault : Option PyExc) : Outcome :=
  match uploadText f with
  | Except.error e => Outcome.crash e
  | Except.ok user_text => analyzeButton user_text randVal aiFault plagFault

/-! ## Helper lemmas -/

/-- The accumulation loop `text += page` is concatenation in order. -/
theorem foldl_append_eq_flatten (l : List (List Char)) (acc : List Char) :
    l.foldl (fun text item => text ++ item) acc = acc ++ l.flatten := by
  induction l generalizing acc with
  | nil => simp
  | cons p ps ih => simp [List.foldl_cons, ih]

/-- The accumulation loop `text += para + "\n"` is concatenation in order with
a newline after each item. -/
theorem foldl_append_newline_eq_flatten (l : List (List Char)) (acc : List Char) :
    l.foldl (fun text item => text ++ item ++ ['\n']) acc
      = acc ++ (l.map (fun item => item ++ ['\n'])).flatten := by
  induction l generalizing acc with
  | nil => simp
  | cons p ps ih => rw [List.foldl_cons, ih]; simp

/-- `startsWithChars` holds of any list against itself. -/
theorem startsWithChars_self (l : List Char) : startsWithChars l l = true := by
  induction l with
  | nil => rfl
  | cons c cs ih => simp [startsWithChars, ih]

/-- A list contains itself as a substring. -/
theorem hasSub_self (l : List Char) : hasSub l l = true := by
  cases l with
  | nil => rfl
  | cons c cs => simp [hasSub, startsWithChars_self]

/-- Substring containment is preserved by prepending. -/
theorem hasSub_append_left (pre hay needle : List Char)
    (h : hasSub hay needle = true) : hasSub (pre ++ hay) needle = true := by
  induction pre with
  | nil => simpa using h
  | cons c cs ih =>
      have hstep : hasSub ((c :: cs) ++ hay) needle
          = (startsWithChars (c :: (cs ++ hay)) needle || hasSub (cs ++ hay) needle) := rfl
      rw [hstep, ih, Bool.or_true]

/-- A replicate of a character contains no substring starting differently. -/
theorem hasSub_replicate_ne (n : ℕ) (c d : Char) (ds : List Char)
    (h : d ≠ c) : hasSub (List.replicate n c) (d :: ds) = false := by
  induction n with
  | zero => rfl
  | succ m ih =>
      simp only [List.replicate_succ, hasSub, startsWithChars, Bool.or_eq_false_iff,
        Bool.and_eq_false_iff]
      exact ⟨Or.inl (by simp [h.symm]), ih⟩

/-! ## Claims -/

/-- Claim C1: for every input text, `check_ai_probability` returns the high
label with numeric value ≥ 50 when the text contains a telltale phrase, and
otherwise the low label with numeric value < 50. -/
theorem C1_ai_scorer_phrase_policy (text : List Char) :
    ((hasSub text telltale1 || hasSub text telltale2) = true →
      check_ai_probability text none = (85.5, "High AI Probability") ∧
      (50 : ℚ) ≤ (check_ai_probability text none).1) ∧
    ((hasSub text telltale1 || hasSub text telltale2) = false →
      check_ai_probability text none = (12.0, "Low AI Probability") ∧
      (check_ai_probability text none).1 < 50) := by
  unfold check_ai_probability check_ai_probability_body pyTry
  constructor <;> intro h <;> simp [h] <;> norm_num

/-- Witness for C1 at one text with a telltale phrase and one without. -/
theorem C1_ai_scorer_phrase_policy_witness :
    check_ai_probability ("In conclusion, the study shows results".toList) none =
      (85.5, "High AI Probability") ∧
    check_ai_probability ("a perfectly ordinary human sentence".toList) none =
      (12.0, "Low AI Probability") :=
  ⟨((C1_ai_scorer_phrase_policy _).1 (by decide)).1,
   ((C1_ai_scorer_phrase_policy _).2 (by decide)).1⟩

/-- Claim C4: `check_plagiarism` (normal run, draw in the `randint(0, 20)`
range) returns a numeric value in [0,100], and its source list is non-empty
iff the value exceeds the threshold 10. -/
theorem C4_plagiarism_range_and_sources (text : List Char) (randVal : ℕ)
    (h : randVal ≤ 20) :
    ∃ p : ℕ × List String,
      check_plagiarism text randVal none = Except.ok p ∧
      p.1 ≤ 100 ∧ (p.2 ≠ [] ↔ 10 < p.1) := by
  refine ⟨(randVal, if randVal > 10 then mockSources else []), rfl,
    le_trans h (by norm_num), ?_⟩
  by_cases hr : 10 < randVal <;> simp [hr, mockSources]

/-- Witness for C4 at a concrete draw. -/
theorem C4_plagiarism_range_and_sources_witness :
    ∃ p : ℕ × List String,
      check_plagiarism ("sample essay text".toList) 15 none = Except.ok p ∧
      p.1 ≤ 100 ∧ (p.2 ≠ [] ↔ 10 < p.1) :=
  C4_plagiarism_range_and_sources _ 15 (by norm_num)

/-- Claim C5: PDF extraction concatenates page texts in page order with no
separator; DOCX extraction concatenates paragraph texts in document order with
a newline appended after each paragraph. -/
theorem C5_extraction_concatenation (pages paras : List (List Char)) :
    extract_text_from_pdf (Except.ok pages) = Except.ok pages.flatten ∧
    extract_text_from_docx (Except.ok paras) =
      Except.ok ((paras.map (fun para => para ++ ['\n'])).flatten) := by
  constructor
  · simp [extract_text_from_pdf, foldl_append_eq_flatten]
  · have h := foldl_append_newline_eq_flatten paras []
    simp only [extract_text_from_docx]
    rw [h]
    simp

/-- Claim C10: `check_plagiarism`'s numeric value lies in [0,20], and a
non-empty source list is exactly the fixed two-element list
["Wikipedia - General Knowledge", "Academic Source A"] in that order. -/
theorem C10_plagiarism_tight_bound_and_fixed_sources (text : List Char)
    (randVal : ℕ) (h : randVal ≤ 20) :
    ∃ p : ℕ × List String,
      check_plagiarism text randVal none = Except.ok p ∧
      p.1 ≤ 20 ∧
      (p.2 ≠ [] → p.2 = ["Wikipedia - General Knowledge", "Academic Source A"]) := by
  refine ⟨(randVal, if randVal > 10 then mockSources else []), rfl, h, ?_⟩
  by_cases hr : 10 < randVal <;> simp [hr, mockSources]

/-- Witness for C10 at a concrete draw. -/
theorem C10_plagiarism_tight_bound_and_fixed_sources_witness :
    ∃ p : ℕ × List String,
      check_plagiarism ("another sample text".toList) 12 none = Except.ok p ∧
      p.1 ≤ 20 ∧
      (p.2 ≠ [] → p.2 = ["Wikipedia - General Knowledge", "Academic Source A"]) :=
  C10_plagiarism_tight_bound_and_fixed_sources _ 12 (by norm_num)

/-- Counterexample to C2: a text of length exactly 50 is rejected with the
length error (the gate is `len(user_text) > 50`, strict), although the claim
says inputs of length at least 50 proceed to scoring. -/
theorem C2_length_threshold_counterexample :
    (List.replicate 50 'a').length = 50 ∧
    analyzeButton (List.replicate 50 'a') 0 none none =
      Outcome.errMsg "Please provide text longer than 50 characters." := by
  exact ⟨by simp, rfl⟩

/-- Claim C2 amended: the analyze path fails with the length error message and
produces no report iff the text's length is at most 50; inputs of length at
least 51 proceed to scoring and yield a report. -/
theorem C2_length_threshold_amended (user_text : List Char) (randVal : ℕ) :
    (user_text.length ≤ 50 →
      analyzeButton user_text randVal none none =
        Outcome.errMsg "Please provide text longer than 50 characters.") ∧
    (50 < user_text.length →
      ∃ rep : AnalysisReport,
        analyzeButton user_text randVal none none = Outcome.report rep) := by
  constructor
  · intro h
    have hcond : (!user_text.isEmpty && decide (50 < user_text.length)) = false := by
      simp [Nat.not_lt.mpr h]
    simp [analyzeButton, hcond]
  · intro h
    have hne : user_text.isEmpty = false := by
      cases user_text with
      | nil => simp at h
      | cons c cs => rfl
    have hcond : (!user_text.isEmpty && decide (50 < user_text.length)) = true := by
      simp [hne, h]
    refine ⟨⟨(check_ai_probability user_text none).1, (check_ai_probability user_text none).2,
      randVal, if randVal > 10 then mockSources else [], user_text⟩, ?_⟩
    simp [analyzeButton, hcond, check_plagiarism]

/-- Witness for amended C2 at a short and a long concrete text. -/
theorem C2_length_threshold_amended_witness :
    analyzeButton (List.replicate 10 'a') 0 none none =
      Outcome.errMsg "Please provide text longer than 50 characters." ∧
    ∃ rep : AnalysisReport,
      analyzeButton (List.replicate 51 'a') 7 none none = Outcome.report rep :=
  ⟨(C2_length_threshold_amended _ 0).1 (by decide),
   (C2_length_threshold_amended _ 7).2 (by decide)⟩

/-- Counterexample to C3: an internal failure in `check_plagiarism` is not
caught and turned into a zero-value error-labeled result — it propagates as
an exception, and through the analyze path it aborts the whole analysis. -/
theorem C3_scoring_error_isolation_counterexample :
    check_plagiarism ("long enough essay text for analysis purposes here".toList) 0
        (some (PyExc.exc "boom")) = Except.error (PyExc.exc "boom") ∧
    analyzeButton (List.replicate 60 'a') 0 none (some (PyExc.exc "boom")) =
      Outcome.crash (PyExc.exc "boom") := by
  exact ⟨rfl, rfl⟩

/-- Claim C3 amended: only `check_ai_probability` catches internal failures
(returning the zero-value error-labeled result `(0.0, "Error")`);
`check_plagiarism` has no handler, so a failure there propagates and aborts
the analysis.  An AI-scorer failure does not abort the analysis and does not
affect the plagiarism result. -/
theorem C3_scoring_error_isolation_amended (text : List Char) (randVal : ℕ)
    (e : PyExc) :
    check_ai_probability text (some e) = (0.0, "Error") ∧
    check_plagiarism text randVal (some e) = Except.error e ∧
    (50 < text.length →
      analyzeButton text randVal (some e) none =
        Outcome.report ⟨0.0, "Error", randVal,
          if randVal > 10 then mockSources else [], text⟩) := by
  refine ⟨rfl, rfl, ?_⟩
  intro h
  have hne : text.isEmpty = false := by
    cases text with
    | nil => simp at h
    | cons c cs => rfl
  have hcond : (!text.isEmpty && decide (50 < text.length)) = true := by
    simp [hne, h]
  simp [analyzeButton, hcond, check_plagiarism, check_ai_probability,
    check_ai_probability_body, pyTry]

/-- Witness for amended C3 at a concrete text, draw and exception. -/
theorem C3_scoring_error_isolation_amended_witness :
    check_ai_probability (List.replicate 60 'b') (some (PyExc.exc "oops")) =
      (0.0, "Error") ∧
    check_plagiarism (List.replicate 60 'b') 15 (some (PyExc.exc "oops")) =
      Except.error (PyExc.exc "oops") ∧
    analyzeButton (List.replicate 60 'b') 15 (some (PyExc.exc "oops")) none =
      Outcome.report ⟨0.0, "Error", 15, if 15 > 10 then mockSources else [],
        List.replicate 60 'b'⟩ := by
  have h := C3_scoring_error_isolation_amended (List.replicate 60 'b') 15 (PyExc.exc "oops")
  exact ⟨h.1, h.2.1, h.2.2 (by decide)⟩

/-- Counterexample to C6: a file with an unsupported tag (name ending in
`.txt`) whose container even holds long readable content does not fail with an
UnsupportedFormat error — extraction is silently skipped, the text stays
empty, and the analyze path fails with the insufficient-length message. -/
theorem C6_unsupported_format_counterexample :
    mainUpload ⟨"notes.txt".toList, Except.ok [List.replicate 60 'a'],
        Except.ok [List.replicate 60 'a']⟩ 0 none none =
      Outcome.errMsg "Please provide text longer than 50 characters." := by
  rfl

/-- Claim C6 amended: for every file whose name ends in neither `.pdf` nor
`.docx`, extraction is skipped, the text stays empty, and the run ends with
the insufficient-length error message (there is no UnsupportedFormat error in
the code); no report is produced. -/
theorem C6_unsupported_format_amended (f : UploadedFile) (randVal : ℕ)
    (aiFault plagFault : Option PyExc)
    (h1 : endsWithChars f.name (".pdf".toList) = false)
    (h2 : endsWithChars f.name (".docx".toList) = false) :
    mainUpload f randVal aiFault plagFault =
      Outcome.errMsg "Please provide text longer than 50 characters." := by
  simp at h1 h2
  simp [mainUpload, uploadText, h1, h2, analyzeButton]

/-- Witness for amended C6 at a concrete `.csv` file. -/
theorem C6_unsupported_format_amended_witness :
    mainUpload ⟨"report.csv".toList, Except.ok [], Except.ok []⟩ 5 none none =
      Outcome.errMsg "Please provide text longer than 50 characters." :=
  C6_unsupported_format_amended _ 5 none none (by decide) (by decide)

/-- Counterexample to C7: a `.pdf` file whose container parse raises (malformed
bytes) makes the pipeline crash with the uncaught exception — the error is not
converted into a surfaced ExtractionFailed error. -/
theorem C7_extraction_crash_counterexample :
    mainUpload ⟨"essay.pdf".toList, Except.error (PyExc.exc "malformed bytes"),
        Except.ok []⟩ 0 none none =
      Outcome.crash (PyExc.exc "malformed bytes") := by
  rfl

/-- Claim C7 amended: for every file with a `.pdf` (resp. `.docx`) name whose
container parse raises, the exception propagates uncaught out of the run (the
pipeline crashes); no report is produced and no scoring runs. -/
theorem C7_extraction_failure_propagates (name : List Char) (e : PyExc)
    (pp dp : Except PyExc (List (List Char))) (randVal : ℕ)
    (aiFault plagFault : Option PyExc) :
    (endsWithChars name (".pdf".toList) = true →
      mainUpload ⟨name, Except.error e, dp⟩ randVal aiFault plagFault =
        Outcome.crash e) ∧
    (endsWithChars name (".pdf".toList) = false →
      endsWithChars name (".docx".toList) = true →
      mainUpload ⟨name, pp, Except.error e⟩ randVal aiFault plagFault =
        Outcome.crash e) := by
  constructor
  · intro h
    simp at h
    simp [mainUpload, uploadText, h, extract_text_from_pdf]
  · intro h1 h2
    simp at h1 h2
    simp [mainUpload, uploadText, h1, h2, extract_text_from_docx]

/-- Witness for amended C7 at a corrupt `.pdf` and a corrupt `.docx` file. -/
theorem C7_extraction_failure_propagates_witness :
    mainUpload ⟨"thesis.pdf".toList, Except.error (PyExc.exc "corrupt"),
        Except.ok []⟩ 3 none none = Outcome.crash (PyExc.exc "corrupt") ∧
    mainUpload ⟨"thesis.docx".toList, Except.ok [],
        Except.error (PyExc.exc "corrupt")⟩ 3 none none =
      Outcome.crash (PyExc.exc "corrupt") :=
  ⟨(C7_extraction_failure_propagates ("thesis.pdf".toList) (PyExc.exc "corrupt")
      (Except.ok []) (Except.ok []) 3 none none).1 (by decide),
   (C7_extraction_failure_propagates ("thesis.docx".toList) (PyExc.exc "corrupt")
      (Except.ok []) (Except.ok []) 3 none none).2 (by decide) (by decide)⟩

/-- A normal run of the AI scorer on a text containing neither phrase. -/
theorem check_ai_probability_eq_low (text : List Char)
    (h1 : hasSub text telltale1 = false) (h2 : hasSub text telltale2 = false) :
    check_ai_probability text none = (12.0, "Low AI Probability") := by
  simp [check_ai_probability, check_ai_probability_body, pyTry, h1, h2]

/-- A normal run of the AI scorer on a text containing the second phrase. -/
theorem check_ai_probability_eq_high (text : List Char)
    (h2 : hasSub text telltale2 = true) :
    check_ai_probability text none = (85.5, "High AI Probability") := by
  simp [check_ai_probability, check_ai_probability_body, pyTry, h2]

/-- Counterexample to C8: the source computes `text[:1500]` but never uses it —
the phrase test runs on the full text.  Two texts agreeing on their first 1500
characters (1500 copies of `x`, with and without a telltale phrase appended
beyond that prefix) get different scores and labels. -/
theorem C8_bounded_prefix_counterexample :
    (List.replicate 1500 'x').take 1500 =
      (List.replicate 1500 'x' ++ "In conclusion,".toList).take 1500 ∧
    check_ai_probability (List.replicate 1500 'x') none ≠
      check_ai_probability (List.replicate 1500 'x' ++ "In conclusion,".toList) none := by
  constructor
  · rw [List.take_append_of_le_length (by rw [List.length_replicate])]
  · have h1 : hasSub (List.replicate 1500 'x') telltale1 = false := by
      have ht : telltale1 = 'A' :: "s an AI language model".toList := by decide
      rw [ht]
      exact hasSub_replicate_ne 1500 'x' 'A' _ (by decide)
    have h2 : hasSub (List.replicate 1500 'x') telltale2 = false := by
      have ht : telltale2 = 'I' :: "n conclusion,".toList := by decide
      rw [ht]
      exact hasSub_replicate_ne 1500 'x' 'I' _ (by decide)
    have h3 : hasSub (List.replicate 1500 'x' ++ "In conclusion,".toList) telltale2 = true :=
      hasSub_append_left _ _ _ (hasSub_self telltale2)
    intro hEq
    rw [check_ai_probability_eq_low _ h1 h2, check_ai_probability_eq_high _ h3] at hEq
    simp at hEq

/-- Claim C8 amended: `check_ai_probability`'s output depends only on whether
the FULL text contains each telltale phrase — any two texts agreeing on
containment of both phrases (under the same fault condition) get the same
score and label; it is not invariant under agreement on the first 1500
characters alone. -/
theorem C8_ai_scorer_containment_dependence (t1 t2 : List Char)
    (fault : Option PyExc)
    (h1 : hasSub t1 telltale1 = hasSub t2 telltale1)
    (h2 : hasSub t1 telltale2 = hasSub t2 telltale2) :
    check_ai_probability t1 fault = check_ai_probability t2 fault := by
  cases fault with
  | some e => rfl
  | none =>
      simp only [check_ai_probability, check_ai_probability_body, pyTry]
      rw [h1, h2]

/-- Witness for amended C8 at two phrase-free texts. -/
theorem C8_ai_scorer_containment_dependence_witness :
    check_ai_probability ("alpha".toList) none =
      check_ai_probability ("beta gamma".toList) none :=
  C8_ai_scorer_containment_dependence _ _ none (by decide) (by decide)

/-- Counterexample to C9: two runs on the same (sufficiently long) text with
two different draws of `random.randint(0, 20)` — both in the legal range —
produce different reports (different plagiarism scores and source lists). -/
theorem C9_determinism_counterexample :
    (5 ≤ 20 ∧ 15 ≤ 20) ∧
    analyzeButton (List.replicate 60 'a') 5 none none ≠
      analyzeButton (List.replicate 60 'a') 15 none none := by
  refine ⟨by norm_num, ?_⟩
  intro hEq
  have e5 : analyzeButton (List.replicate 60 'a') 5 none none =
      Outcome.report ⟨12.0, "Low AI Probability", 5, [], List.replicate 60 'a'⟩ := by
    rfl
  have e15 : analyzeButton (List.replicate 60 'a') 15 none none =
      Outcome.report ⟨12.0, "Low AI Probability", 15, mockSources,
        List.replicate 60 'a'⟩ := by
    rfl
  rw [e5, e15] at hEq
  simp [AnalysisReport.mk.injEq] at hEq

/-- Claim C9 amended: the analyze path is deterministic given the text AND the
random draw — the AI score, AI label and extracted text of the report do not
depend on the draw at all, and equal draws give equal reports; only the
plagiarism score and source list vary with the draw. -/
theorem C9_determinism_up_to_draw (text : List Char) (r1 r2 : ℕ)
    (h : 50 < text.length) :
    ∃ rep1 rep2 : AnalysisReport,
      analyzeButton text r1 none none = Outcome.report rep1 ∧
      analyzeButton text r2 none none = Outcome.report rep2 ∧
      rep1.ai_score = rep2.ai_score ∧
      rep1.ai_label = rep2.ai_label ∧
      rep1.extracted_text = rep2.extracted_text ∧
      (r1 = r2 → rep1 = rep2) := by
  have hne : text.isEmpty = false := by
    cases text with
    | nil => simp at h
    | cons c cs => rfl
  have hcond : (!text.isEmpty && decide (50 < text.length)) = true := by
    simp [hne, h]
  refine ⟨⟨(check_ai_probability text none).1, (check_ai_probability text none).2, r1,
      if r1 > 10 then mockSources else [], text⟩,
    ⟨(check_ai_probability text none).1, (check_ai_probability text none).2, r2,
      if r2 > 10 then mockSources else [], text⟩, ?_, ?_, rfl, rfl, rfl, ?_⟩
  · simp [analyzeButton, hcond, check_plagiarism]
  · simp [analyzeButton, hcond, check_plagiarism]
  · intro hr
    subst hr
    rfl

/-- Witness for amended C9 at a concrete text and two concrete draws. -/
theorem C9_determinism_up_to_draw_witness :
    ∃ rep1 rep2 : AnalysisReport,
      analyzeButton (List.replicate 55 'c') 4 none none = Outcome.report rep1 ∧
      analyzeButton (List.replicate 55 'c') 18 none none = Outcome.report rep2 ∧
      rep1.ai_score = rep2.ai_score ∧
      rep1.ai_label = rep2.ai_label ∧
      rep1.extracted_text = rep2.extracted_text ∧
      (4 = 18 → rep1 = rep2) :=
  C9_determinism_up_to_draw _ 4 18 (by decide)
